import Mathlib

/-!
Shallow embedding of the tennis-court booking system
(availability scanner + booking executor) and proofs about it.

Sources embedded (file names refer to the repository):
* `booking_core/config.py` — court catalog maps and `get_court_order`
* `booking_operations.py` — `try_booking_alternative_courts`, `wait_until_booking_time`
* `booking_script.py` — `try_booking_other_courts`, `wait_until_8am`, `main`'s finally block
* `booking_script_refactored.py` — `main`
* `booking_core/utils.py` — `managed_webdriver`, `get_eastern_time`
* `availability_check.py` — `login`, `check_court_availability`, `check_day`
-/

/-- Association-list lookup, modelling Python dict access `m[k]` /
`m.get(k)` over the small static string maps of `config.py`. -/
def lookupStr (m : List (String × String)) (k : String) : Option String :=
  (m.find? (fun p => p.1 == k)).map Prod.snd

/-- The `COURT_IDS` dict of `booking_core/config.py` (checkbox id → court name),
as an association list in the source's insertion order. -/
def COURT_IDS : List (String × String) :=
  [ ("036dfea4-c487-47b0-b7fe-c9cbe52b7c98", "Octagon Tennis 1")
  , ("175bdff8-016e-46ab-a9df-829fe40c0754", "Octagon Tennis 2")
  , ("9bdef00b-afa0-4b6b-bf9a-75899f7f97c7", "Octagon Tennis 3")
  , ("d311851d-ce53-49fc-9662-42adcda26109", "Octagon Tennis 4")
  , ("8a5ca8e8-3be0-4145-a4ef-91a69671295b", "Octagon Tennis 5")
  , ("77c7f42c-8891-4818-a610-d5c1027c62fe", "Octagon Tennis 6") ]

/-- The `SITE_TO_CHECKBOX_MAP` dict of `booking_core/config.py`
(site id → checkbox id), in the source's insertion order. -/
def SITE_TO_CHECKBOX_MAP : List (String × String) :=
  [ ("3c9230f0-9e2c-4ff0-8ad7-5300eb475af5", "036dfea4-c487-47b0-b7fe-c9cbe52b7c98")
  , ("f96d68ab-adea-42cb-8b42-c45a89e7ae2b", "175bdff8-016e-46ab-a9df-829fe40c0754")
  , ("5633e568-7db6-4e84-a02b-3ac827406bfc", "9bdef00b-afa0-4b6b-bf9a-75899f7f97c7")
  , ("3e83f44d-ed76-4a95-a73e-e9c5dcfa6e55", "d311851d-ce53-49fc-9662-42adcda26109")
  , ("2158c5f2-8734-4755-b2ef-2627d4a5f0b1", "8a5ca8e8-3be0-4145-a4ef-91a69671295b")
  , ("f3794e38-71ac-4440-9f3b-1adce02df1d7", "77c7f42c-8891-4818-a610-d5c1027c62fe") ]

/-- The `COURT_NAME_MAP` dict of `booking_core/config.py`
(site id → court display name), in the source's insertion order. -/
def COURT_NAME_MAP : List (String × String) :=
  [ ("3c9230f0-9e2c-4ff0-8ad7-5300eb475af5", "Octagon Tennis 1")
  , ("f96d68ab-adea-42cb-8b42-c45a89e7ae2b", "Octagon Tennis 2")
  , ("5633e568-7db6-4e84-a02b-3ac827406bfc", "Octagon Tennis 3")
  , ("3e83f44d-ed76-4a95-a73e-e9c5dcfa6e55", "Octagon Tennis 4")
  , ("2158c5f2-8734-4755-b2ef-2627d4a5f0b1", "Octagon Tennis 5")
  , ("f3794e38-71ac-4440-9f3b-1adce02df1d7", "Octagon Tennis 6") ]

/-- The morning branch of `get_court_order` (hour < 12) in
`booking_core/config.py`; `booking_script.py` inlines the same list. -/
def morningCourtOrder : List String :=
  [ "3c9230f0-9e2c-4ff0-8ad7-5300eb475af5"   -- Octagon Tennis 1
  , "3e83f44d-ed76-4a95-a73e-e9c5dcfa6e55"   -- Octagon Tennis 4
  , "5633e568-7db6-4e84-a02b-3ac827406bfc"   -- Octagon Tennis 3
  , "f3794e38-71ac-4440-9f3b-1adce02df1d7"   -- Octagon Tennis 6
  , "f96d68ab-adea-42cb-8b42-c45a89e7ae2b"   -- Octagon Tennis 2
  , "2158c5f2-8734-4755-b2ef-2627d4a5f0b1" ] -- Octagon Tennis 5

/-- The afternoon/evening branch of `get_court_order` (hour >= 12) in
`booking_core/config.py`; `booking_script.py` inlines the same list. -/
def afternoonCourtOrder : List String :=
  [ "f3794e38-71ac-4440-9f3b-1adce02df1d7"   -- Octagon Tennis 6
  , "5633e568-7db6-4e84-a02b-3ac827406bfc"   -- Octagon Tennis 3
  , "3e83f44d-ed76-4a95-a73e-e9c5dcfa6e55"   -- Octagon Tennis 4
  , "3c9230f0-9e2c-4ff0-8ad7-5300eb475af5"   -- Octagon Tennis 1
  , "2158c5f2-8734-4755-b2ef-2627d4a5f0b1"   -- Octagon Tennis 5
  , "f96d68ab-adea-42cb-8b42-c45a89e7ae2b" ] -- Octagon Tennis 2

/-- `get_court_order(selected_time)` of `booking_core/config.py`: the hour is
`int(selected_time)`; hours before 12 get the morning permutation, the rest the
afternoon permutation. Modelled on the parsed hour. -/
def get_court_order (hour : Nat) : List String :=
  if hour < 12 then morningCourtOrder else afternoonCourtOrder

/-- The list of cataloged site ids (the keys of `COURT_NAME_MAP`). -/
def catalogSiteIds : List String := COURT_NAME_MAP.map Prod.fst

/-- CLAIM C2: for every hour in [0,23], `get_court_order` returns each of the
six cataloged courts exactly once, and the result is one of exactly two fixed
permutations — the morning one for every hour < 12 and the (distinct)
afternoon one for every hour >= 12. -/
theorem c2_priority_order_totality (hour : Nat) (hh : hour ≤ 23) :
    (get_court_order hour).length = 6 ∧
    (∀ c ∈ catalogSiteIds, (get_court_order hour).count c = 1) ∧
    (∀ c ∈ get_court_order hour, c ∈ catalogSiteIds) ∧
    (hour < 12 → get_court_order hour = morningCourtOrder) ∧
    (12 ≤ hour → get_court_order hour = afternoonCourtOrder) ∧
    morningCourtOrder ≠ afternoonCourtOrder := by
  by_cases h12 : hour < 12
  · rw [show get_court_order hour = morningCourtOrder from if_pos h12]
    refine ⟨by decide, by decide, by decide, fun _ => rfl, fun hc => absurd h12 (by omega), by decide⟩
  · rw [show get_court_order hour = afternoonCourtOrder from if_neg h12]
    refine ⟨by decide, by decide, by decide, fun hc => absurd hc h12, fun _ => rfl, by decide⟩

/-- Witness for C2 at the concrete hour 9. -/
theorem c2_priority_order_totality_witness :
    (get_court_order 9).length = 6 ∧
    (∀ c ∈ catalogSiteIds, (get_court_order 9).count c = 1) ∧
    (∀ c ∈ get_court_order 9, c ∈ catalogSiteIds) ∧
    (9 < 12 → get_court_order 9 = morningCourtOrder) ∧
    (12 ≤ 9 → get_court_order 9 = afternoonCourtOrder) ∧
    morningCourtOrder ≠ afternoonCourtOrder :=
  c2_priority_order_totality 9 (by decide)

/-- CLAIM C10 (implicit catalog consistency): the three static maps agree —
`SITE_TO_CHECKBOX_MAP` and `COURT_NAME_MAP` have the same six site-id keys,
the values of `SITE_TO_CHECKBOX_MAP` are exactly the keys of `COURT_IDS`,
`COURT_NAME_MAP[s] = COURT_IDS[SITE_TO_CHECKBOX_MAP[s]]` for every site id
`s`, and every id produced by `get_court_order` at any hour is a key of both
`SITE_TO_CHECKBOX_MAP` and `COURT_NAME_MAP`, so the name and checkbox lookups
of the selection code and the fallback loop always succeed. -/
theorem c10_catalog_consistency :
    SITE_TO_CHECKBOX_MAP.map Prod.fst = COURT_NAME_MAP.map Prod.fst ∧
    SITE_TO_CHECKBOX_MAP.map Prod.snd = COURT_IDS.map Prod.fst ∧
    (∀ s ∈ SITE_TO_CHECKBOX_MAP.map Prod.fst,
      lookupStr COURT_NAME_MAP s = (lookupStr SITE_TO_CHECKBOX_MAP s).bind (lookupStr COURT_IDS)) ∧
    (∀ hour : Nat, ∀ c ∈ get_court_order hour,
      (lookupStr SITE_TO_CHECKBOX_MAP c).isSome ∧ (lookupStr COURT_NAME_MAP c).isSome) := by
  refine ⟨by decide, by decide, by decide, fun hour c hc => ?_⟩
  by_cases h12 : hour < 12
  · rw [show get_court_order hour = morningCourtOrder from if_pos h12] at hc
    revert hc; revert c; decide
  · rw [show get_court_order hour = afternoonCourtOrder from if_neg h12] at hc
    revert hc; revert c; decide

/-- Witness for C10's quantified parts at a concrete site id and hour. -/
theorem c10_catalog_consistency_witness :
    lookupStr COURT_NAME_MAP "3c9230f0-9e2c-4ff0-8ad7-5300eb475af5" =
      (lookupStr SITE_TO_CHECKBOX_MAP "3c9230f0-9e2c-4ff0-8ad7-5300eb475af5").bind (lookupStr COURT_IDS) ∧
    (lookupStr SITE_TO_CHECKBOX_MAP "f3794e38-71ac-4440-9f3b-1adce02df1d7").isSome :=
  ⟨c10_catalog_consistency.2.2.1 _ (by decide),
   (c10_catalog_consistency.2.2.2 14 "f3794e38-71ac-4440-9f3b-1adce02df1d7" (by decide)).1⟩

/-- Outcome of the browser interactions for one candidate court inside the
fallback loop of `BookingOperations.try_booking_alternative_courts`
(`booking_operations.py`, lines 204-233). Each field records whether the
corresponding interaction succeeds in the current run of the remote page:
`siteFound` — `safe_wait_for_element((By.ID, 'site'))` returns an element;
`selectOk` — `Select(...).select_by_value(court_id)` does not raise;
`checkboxOk` — `safe_wait_and_click` on the court's checkbox returns True;
`confirmClickOk` — `safe_wait_and_click` on the Add & Confirm button returns
True; `confirmGone` — the 2-second `WebDriverWait ... invisibility_of_element`
poll succeeds (booking acceptance) rather than raising `TimeoutException`. -/
structure CourtAttempt where
  siteFound : Bool
  selectOk : Bool
  checkboxOk : Bool
  confirmClickOk : Bool
  confirmGone : Bool
deriving DecidableEq

/-- A world assigns to each court id the behaviour of the remote page when
that court is attempted in the fallback loop. -/
def FallbackWorld : Type := String → CourtAttempt

/-- One iteration of the fallback loop accepts a court exactly when all five
interaction gates succeed; every other combination falls through to the next
candidate (failed `if` guards fall off the body, and raised exceptions are
swallowed by the `except: continue`). -/
def attemptAccepted (w : FallbackWorld) (c : String) : Bool :=
  (w c).siteFound && (w c).selectOk && (w c).checkboxOk &&
    (w c).confirmClickOk && (w c).confirmGone

/-- A candidate wins its loop iteration: the `COURT_NAME_MAP[court_id]` lookup
at the top of the body succeeds (a `KeyError` would be caught and skip the
candidate) and the interaction gates all succeed. -/
def courtWins (w : FallbackWorld) (c : String) : Bool :=
  (lookupStr COURT_NAME_MAP c).isSome && attemptAccepted w c

/-- The success message returned by `try_booking_alternative_courts` (and by
`booking_script.py`'s `try_booking_other_courts`). -/
def successMessage (courtName email : String) (selectedTime relativeDays : Nat) : String :=
  "Booking successful for " ++ courtName ++ " under account " ++ email ++
    " for time " ++ toString selectedTime ++ " on day " ++ toString relativeDays ++ "."

/-- The failure message returned when the loop exhausts all candidates. -/
def failureMessage (email : String) (selectedTime relativeDays : Nat) : String :=
  "Booking failed under account " ++ email ++ " for time " ++
    toString selectedTime ++ " on day " ++ toString relativeDays ++ "."

/-- The `for court_id in court_ids:` loop body chain of
`try_booking_alternative_courts`: return the success message at the first
candidate that wins, otherwise fall through to the failure message. -/
def tryCourtList (w : FallbackWorld) (email : String) (selectedTime relativeDays : Nat) :
    List String → String
  | [] => failureMessage email selectedTime relativeDays
  | c :: rest =>
    match lookupStr COURT_NAME_MAP c with
    | none => tryCourtList w email selectedTime relativeDays rest
    | some name =>
      if attemptAccepted w c then successMessage name email selectedTime relativeDays
      else tryCourtList w email selectedTime relativeDays rest

/-- `BookingOperations.try_booking_alternative_courts(selected_time, email,
relative_days)`: iterates `get_court_order(selected_time)` — the full priority
order, with no exclusion parameter. `booking_script.py`'s
`try_booking_other_courts` iterates the same `COURT_IDS = get_court_order(
selected_time)` list with the same body. -/
def try_booking_alternative_courts (w : FallbackWorld) (email : String)
    (selectedTime relativeDays : Nat) : String :=
  tryCourtList w email selectedTime relativeDays (get_court_order selectedTime)

/-- Instrumentation of the same loop: the list of candidates whose iteration
is entered, in order, stopping after the first winner. -/
def tryCourtTraceList (w : FallbackWorld) : List String → List String
  | [] => []
  | c :: rest => c :: (if courtWins w c then [] else tryCourtTraceList w rest)

/-- The candidates attempted by the fallback loop for a requested hour. -/
def fallbackTrace (w : FallbackWorld) (selectedTime : Nat) : List String :=
  tryCourtTraceList w (get_court_order selectedTime)

/-- The court initially selected before the first confirm click:
`booking_script_refactored.py` uses `court_order[0]` and `booking_script.py`
uses `COURT_IDS[0]`, both the head of the priority order for the hour. -/
def originallySelectedCourt (selectedTime : Nat) : Option String :=
  (get_court_order selectedTime).head?

/-- A world in which every interaction fails (every court conflicts). -/
def allFailWorld : FallbackWorld := fun _ => ⟨false, false, false, false, false⟩

/-- A world in which exactly one given court id is accepted and every other
court conflicts. -/
def onlyCourtWorld (winner : String) : FallbackWorld :=
  fun c => if c == winner then ⟨true, true, true, true, true⟩
           else ⟨false, false, false, false, false⟩

/-- COUNTEREXAMPLE to CLAIM C1: at requested hour 8, the originally selected
court is the head of the priority order ('3c9230f0…', Octagon Tennis 1), and
in a run where the conflict label was shown and every candidate conflicts, the
fallback loop re-attempts that same court — indeed as its first candidate —
contradicting the claim that the already-tried resource is excluded. -/
theorem c1_original_court_reattempted :
    originallySelectedCourt 8 = some "3c9230f0-9e2c-4ff0-8ad7-5300eb475af5" ∧
    "3c9230f0-9e2c-4ff0-8ad7-5300eb475af5" ∈ fallbackTrace allFailWorld 8 ∧
    (fallbackTrace allFailWorld 8).head? = some "3c9230f0-9e2c-4ff0-8ad7-5300eb475af5" := by
  refine ⟨rfl, ?_, rfl⟩
  simp [fallbackTrace, get_court_order, morningCourtOrder, tryCourtTraceList,
    courtWins, attemptAccepted, allFailWorld]

/-- Helper: over any candidate list, the attempted trace is an initial segment
of the list and begins with the list's head. -/
theorem tryCourtTraceList_take (w : FallbackWorld) (cs : List String) :
    tryCourtTraceList w cs = cs.take (tryCourtTraceList w cs).length ∧
    (tryCourtTraceList w cs).head? = cs.head? := by
  induction cs with
  | nil => exact ⟨rfl, rfl⟩
  | cons c rest ih =>
    by_cases hw : courtWins w c
    · simp [tryCourtTraceList, hw]
    · refine ⟨?_, by simp [tryCourtTraceList, hw]⟩
      simp only [tryCourtTraceList, hw, if_neg, Bool.false_eq_true, if_false]
      simpa using ih.1

/-- CLAIM C1 as amended: the fallback loop iterates the priority order for the
requested hour WITHOUT excluding the already-tried resource — the attempted
candidates form an initial segment of the full `get_court_order` list, and the
first fallback candidate is exactly the originally selected court, which is
therefore always re-attempted first. -/
theorem c1_fallback_iterates_full_order (w : FallbackWorld) (selectedTime : Nat) :
    fallbackTrace w selectedTime =
      (get_court_order selectedTime).take (fallbackTrace w selectedTime).length ∧
    (fallbackTrace w selectedTime).head? = originallySelectedCourt selectedTime := by
  exact tryCourtTraceList_take w (get_court_order selectedTime)

/-- Helper: if every candidate in a list fails to win, the loop falls off the
end and returns the failure message. -/
theorem tryCourtList_allFail (w : FallbackWorld) (email : String)
    (selectedTime relativeDays : Nat) (cs : List String)
    (hall : ∀ c ∈ cs, courtWins w c = false) :
    tryCourtList w email selectedTime relativeDays cs =
      failureMessage email selectedTime relativeDays := by
  induction cs with
  | nil => rfl
  | cons c rest ih =>
    have hc := hall c (List.mem_cons_self c rest)
    have hrest := fun x hx => hall x (List.mem_cons_of_mem c hx)
    unfold tryCourtList
    cases hlk : lookupStr COURT_NAME_MAP c with
    | none => exact ih hrest
    | some name =>
      have hacc : attemptAccepted w c = false := by
        have := hc
        unfold courtWins at this
        rw [hlk] at this
        simpa using this
      rw [hacc]
      exact ih hrest

/-- Helper: the first winning candidate short-circuits the loop — the success
message names that candidate and the trace stops exactly there. -/
theorem tryCourtList_firstWin (w : FallbackWorld) (email : String)
    (selectedTime relativeDays : Nat) (pre : List String) (c : String)
    (post : List String) (name : String)
    (hpre : ∀ x ∈ pre, courtWins w x = false)
    (hwin : courtWins w c = true)
    (hname : lookupStr COURT_NAME_MAP c = some name) :
    tryCourtList w email selectedTime relativeDays (pre ++ c :: post) =
      successMessage name email selectedTime relativeDays ∧
    tryCourtTraceList w (pre ++ c :: post) = pre ++ [c] := by
  induction pre with
  | nil =>
    have hacc : attemptAccepted w c = true := by
      unfold courtWins at hwin
      rw [hname] at hwin
      simpa using hwin
    constructor
    · show tryCourtList w email selectedTime relativeDays (c :: post) = _
      unfold tryCourtList
      rw [hname, hacc]
      simp
    · show tryCourtTraceList w (c :: post) = _
      unfold tryCourtTraceList
      rw [hwin]
      simp
  | cons p rest ih =>
    have hp := hpre p (List.mem_cons_self p rest)
    have hrest := fun x hx => hpre x (List.mem_cons_of_mem p hx)
    have ihr := ih hrest
    constructor
    · show tryCourtList w email selectedTime relativeDays (p :: (rest ++ c :: post)) = _
      unfold tryCourtList
      cases hlk : lookupStr COURT_NAME_MAP p with
      | none => exact ihr.1
      | some pname =>
        have hacc : attemptAccepted w p = false := by
          unfold courtWins at hp
          rw [hlk] at hp
          simpa using hp
        rw [hacc]
        exact ihr.1
    · show tryCourtTraceList w (p :: (rest ++ c :: post)) = _
      unfold tryCourtTraceList
      rw [hp]
      simpa using ihr.2

/-- CLAIM C4: in the fallback loop, the first candidate for which the confirm
control becomes absent terminates the iteration — the returned outcome is the
success message naming exactly that candidate, and the attempted-candidate
trace ends at it, so no later candidate in the priority order is attempted. -/
theorem c4_fallback_short_circuit (w : FallbackWorld) (email : String)
    (selectedTime relativeDays : Nat) (pre : List String) (c : String)
    (post : List String) (name : String)
    (horder : get_court_order selectedTime = pre ++ c :: post)
    (hpre : ∀ x ∈ pre, courtWins w x = false)
    (hwin : courtWins w c = true)
    (hname : lookupStr COURT_NAME_MAP c = some name) :
    try_booking_alternative_courts w email selectedTime relativeDays =
      successMessage name email selectedTime relativeDays ∧
    fallbackTrace w selectedTime = pre ++ [c] := by
  have h := tryCourtList_firstWin w email selectedTime relativeDays pre c post name hpre hwin hname
  unfold try_booking_alternative_courts fallbackTrace
  rw [horder]
  exact h

/-- Witness for C4: at hour 8 the original first-priority court (Tennis 1)
conflicts but the second-priority court (Tennis 4) is accepted; the outcome
names Tennis 4 and the trace stops after the second candidate. -/
theorem c4_fallback_short_circuit_witness :
    try_booking_alternative_courts
        (onlyCourtWorld "3e83f44d-ed76-4a95-a73e-e9c5dcfa6e55") "alice@example.com" 8 1 =
      successMessage "Octagon Tennis 4" "alice@example.com" 8 1 ∧
    fallbackTrace (onlyCourtWorld "3e83f44d-ed76-4a95-a73e-e9c5dcfa6e55") 8 =
      ["3c9230f0-9e2c-4ff0-8ad7-5300eb475af5", "3e83f44d-ed76-4a95-a73e-e9c5dcfa6e55"] :=
  c4_fallback_short_circuit
    (onlyCourtWorld "3e83f44d-ed76-4a95-a73e-e9c5dcfa6e55") "alice@example.com" 8 1
    ["3c9230f0-9e2c-4ff0-8ad7-5300eb475af5"] "3e83f44d-ed76-4a95-a73e-e9c5dcfa6e55"
    ["5633e568-7db6-4e84-a02b-3ac827406bfc", "f3794e38-71ac-4440-9f3b-1adce02df1d7",
     "f96d68ab-adea-42cb-8b42-c45a89e7ae2b", "2158c5f2-8734-4755-b2ef-2627d4a5f0b1"]
    "Octagon Tennis 4" (by decide) (by decide) (by decide) (by decide)

/-- The observable steps of one run of `booking_script_refactored.py`'s
`main`, in the order the source invokes them. -/
inductive Step
  | loginStep
  | navigateStep
  | waitGateStep
  | selectSiteStep
  | selectDateStep
  | bookCourtStep
  | checkErrorStep
  | tryAlternativesStep
  | fillDetailsStep
  | submitFormStep
deriving DecidableEq

/-- Environment of one run of the refactored `main`: for each fallible step,
`none` means the call returns normally and `some e` means it raises an
exception rendered as the string `e` (caught by `main`'s outer `except`,
which returns the error outcome). `errorShown` is the Boolean result of
`check_error_message()`; `world` drives the fallback loop, which never
raises. -/
structure MainEnv where
  world : FallbackWorld
  loginErr : Option String
  navigateErr : Option String
  selectSiteErr : Option String
  selectDateErr : Option String
  bookErr : Option String
  errorShown : Bool
  fillErr : Option String
  submitErr : Option String

/-- The outer-except outcome string of the refactored `main`:
`"Booking failed for " + email + ": " + str(e)`. -/
def bookingFailedFor (email e : String) : String :=
  "Booking failed for " ++ email ++ ": " ++ e

/-- `booking_script_refactored.py`'s `main(selected_time, email, password,
relative_days)`, instrumented with the list of steps whose call was reached.
The sequencing, the choice of `court_order[0]` as the first attempt, the
conflict branch into `try_booking_alternative_courts`, and the unconditional
continuation into `fill_additional_details` and `submit_form` follow the
source; any raised exception short-circuits to the outer `except`. -/
def refactored_main (env : MainEnv) (email : String)
    (selectedTime relativeDays : Nat) : String × List Step :=
  match env.loginErr with
  | some e => (bookingFailedFor email e, [Step.loginStep])
  | none =>
  match env.navigateErr with
  | some e => (bookingFailedFor email e, [Step.loginStep, Step.navigateStep])
  | none =>
  match originallySelectedCourt selectedTime with
  | none => (bookingFailedFor email "list index out of range",
             [Step.loginStep, Step.navigateStep, Step.waitGateStep])
  | some firstCourt =>
  match lookupStr COURT_NAME_MAP firstCourt with
  | none => (bookingFailedFor email "KeyError",
             [Step.loginStep, Step.navigateStep, Step.waitGateStep])
  | some firstCourtName =>
  match env.selectSiteErr with
  | some e => (bookingFailedFor email e,
               [Step.loginStep, Step.navigateStep, Step.waitGateStep, Step.selectSiteStep])
  | none =>
  match env.selectDateErr with
  | some e => (bookingFailedFor email e,
               [Step.loginStep, Step.navigateStep, Step.waitGateStep, Step.selectSiteStep,
                Step.selectDateStep])
  | none =>
  match env.bookErr with
  | some e => (bookingFailedFor email e,
               [Step.loginStep, Step.navigateStep, Step.waitGateStep, Step.selectSiteStep,
                Step.selectDateStep, Step.bookCourtStep])
  | none =>
  let resultMessage :=
    if env.errorShown then
      try_booking_alternative_courts env.world email selectedTime relativeDays
    else successMessage firstCourtName email selectedTime relativeDays
  let traceToCheck :=
    [Step.loginStep, Step.navigateStep, Step.waitGateStep, Step.selectSiteStep,
     Step.selectDateStep, Step.bookCourtStep, Step.checkErrorStep] ++
      (if env.errorShown then [Step.tryAlternativesStep] else [])
  match env.fillErr with
  | some e => (bookingFailedFor email e, traceToCheck ++ [Step.fillDetailsStep])
  | none =>
  match env.submitErr with
  | some e => (bookingFailedFor email e,
               traceToCheck ++ [Step.fillDetailsStep, Step.submitFormStep])
  | none => (resultMessage, traceToCheck ++ [Step.fillDetailsStep, Step.submitFormStep])

/-- CLAIM C5: if the conflict label is shown and every fallback candidate
fails, the run's outcome is the failure message that records no booked
resource, and execution still reaches the finalization steps — filling the
auxiliary form fields and clicking final submit — before that failure outcome
is returned. -/
theorem c5_fallback_exhaustion_finalizes (env : MainEnv) (email : String)
    (selectedTime relativeDays : Nat)
    (hlogin : env.loginErr = none) (hnav : env.navigateErr = none)
    (hsite : env.selectSiteErr = none) (hdate : env.selectDateErr = none)
    (hbook : env.bookErr = none) (hshown : env.errorShown = true)
    (hall : ∀ c ∈ get_court_order selectedTime, courtWins env.world c = false)
    (hfill : env.fillErr = none) (hsubmit : env.submitErr = none) :
    refactored_main env email selectedTime relativeDays =
      (failureMessage email selectedTime relativeDays,
       [Step.loginStep, Step.navigateStep, Step.waitGateStep, Step.selectSiteStep,
        Step.selectDateStep, Step.bookCourtStep, Step.checkErrorStep,
        Step.tryAlternativesStep, Step.fillDetailsStep, Step.submitFormStep]) := by
  have hfail : try_booking_alternative_courts env.world email selectedTime relativeDays =
      failureMessage email selectedTime relativeDays :=
    tryCourtList_allFail env.world email selectedTime relativeDays _ hall
  by_cases h12 : selectedTime < 12
  · have hord : get_court_order selectedTime = morningCourtOrder := if_pos h12
    unfold refactored_main
    rw [hlogin, hnav, hsite, hdate, hbook, hfill, hsubmit, hshown]
    simp only [originallySelectedCourt, hord, hfail]
    rfl
  · have hord : get_court_order selectedTime = afternoonCourtOrder := if_neg h12
    unfold refactored_main
    rw [hlogin, hnav, hsite, hdate, hbook, hfill, hsubmit, hshown]
    simp only [originallySelectedCourt, hord, hfail]
    rfl

/-- Witness for C5: a concrete all-conflict run at hour 8 returns the failure
message and still reaches the fill-details and submit steps. -/
theorem c5_fallback_exhaustion_finalizes_witness :
    refactored_main ⟨allFailWorld, none, none, none, none, none, true, none, none⟩
        "bob@example.com" 8 1 =
      (failureMessage "bob@example.com" 8 1,
       [Step.loginStep, Step.navigateStep, Step.waitGateStep, Step.selectSiteStep,
        Step.selectDateStep, Step.bookCourtStep, Step.checkErrorStep,
        Step.tryAlternativesStep, Step.fillDetailsStep, Step.submitFormStep]) :=
  c5_fallback_exhaustion_finalizes
    ⟨allFailWorld, none, none, none, none, none, true, none, none⟩
    "bob@example.com" 8 1 rfl rfl rfl rfl rfl rfl (by decide) rfl rfl

/-- The target instant computed by `now.replace(hour=h, minute=0, second=0,
microsecond=0)`: the start of `now`'s calendar day plus `h` hours. Clock
values are modelled as seconds on the wall clock the caller reads. -/
def targetInstant (now targetHour : Nat) : Nat :=
  now / 86400 * 86400 + targetHour * 3600

/-- The duration passed to `time.sleep` by the release-time gate
(`wait_until_8am` in `booking_script.py` and
`BookingOperations.wait_until_booking_time` in `booking_operations.py`):
`target - now` when `now < target`, and no sleep (zero) otherwise. -/
def computeWait (now targetHour : Nat) : Nat :=
  if now < targetInstant now targetHour then targetInstant now targetHour - now else 0

/-- `WAIT_UNTIL_HOUR` of `BookingConfig` in `booking_core/config.py`. -/
def WAIT_UNTIL_HOUR : Nat := 8

/-- `wait_until_8am()` of `booking_script.py`, reading the clock value `now`
and returning the number of seconds slept. -/
def wait_until_8am (now : Nat) : Nat := computeWait now 8

/-- The clock value at which the gate releases the caller: the caller sleeps
exactly the computed duration, then proceeds. -/
def gateReleaseClock (now targetHour : Nat) : Nat := now + computeWait now targetHour

/-- CLAIM C3: the release-time gate computes a wait of exactly
`target - now` when `now` is strictly before today's target instant, and zero
(never failing, never negative — the duration is a natural number by
construction) when `now` is at or after it; the caller sleeps exactly the
computed duration, so the clock on release is the later of `now` and the
target instant. -/
theorem c3_release_gate_wait (now targetHour : Nat) :
    (now < targetInstant now targetHour →
      computeWait now targetHour = targetInstant now targetHour - now) ∧
    (targetInstant now targetHour ≤ now → computeWait now targetHour = 0) ∧
    wait_until_8am now = computeWait now 8 ∧
    gateReleaseClock now targetHour = max now (targetInstant now targetHour) := by
  refine ⟨fun h => if_pos h, fun h => if_neg (by omega), rfl, ?_⟩
  unfold gateReleaseClock computeWait
  by_cases h : now < targetInstant now targetHour
  · rw [if_pos h]; omega
  · rw [if_neg h]; omega

/-- Witness for C3 at the boundary: one second before today's 08:00:00 the
wait is exactly one second; at 08:00:00 sharp and one second after it the
wait is zero. -/
theorem c3_release_gate_wait_witness :
    (28799 < targetInstant 28799 8 → computeWait 28799 8 = targetInstant 28799 8 - 28799) ∧
    (targetInstant 28800 8 ≤ 28800 → computeWait 28800 8 = 0) ∧
    (targetInstant 28801 8 ≤ 28801 → computeWait 28801 8 = 0) ∧
    computeWait 28799 8 = 1 ∧ computeWait 28800 8 = 0 ∧ computeWait 28801 8 = 0 :=
  ⟨(c3_release_gate_wait 28799 8).1, (c3_release_gate_wait 28800 8).2.1,
   (c3_release_gate_wait 28801 8).2.1, by decide, by decide, by decide⟩

/-- A host machine's local wall clock: the absolute instant shifted by the
host timezone's offset (in seconds, as a forward shift modulo one day). -/
def localClock (absTime hostOffset : Nat) : Nat := absTime + hostOffset

/-- `wait_until_8am` as deployed in `booking_script.py`: `datetime.now()`
reads the HOST-LOCAL wall clock, so the computed wait depends on the host
timezone offset. -/
def wait_until_8am_on_host (absTime hostOffset : Nat) : Nat :=
  computeWait (localClock absTime hostOffset) 8

/-- The fixed US Eastern offset used by `EASTERN_TZ` in
`booking_core/config.py`, as a forward shift modulo one day (UTC-5 standard
time = +19 h mod 24 h; the model treats it as one fixed reference offset). -/
def EASTERN_OFFSET : Nat := 68400

/-- `get_eastern_time()` of `booking_core/utils.py`:
`datetime.now(EASTERN_TZ)` reads the absolute instant and renders it in the
fixed reference timezone; the host timezone offset is taken as an argument
only to show it is never consulted. -/
def get_eastern_time (absTime hostOffset : Nat) : Nat :=
  localClock absTime EASTERN_OFFSET

/-- `BookingOperations.wait_until_booking_time()` of `booking_operations.py`:
the gate evaluated on the Eastern clock at `WAIT_UNTIL_HOUR`. -/
def wait_until_booking_time (absTime hostOffset : Nat) : Nat :=
  computeWait (get_eastern_time absTime hostOffset) WAIT_UNTIL_HOUR

/-- COUNTEREXAMPLE to CLAIM C7: the cited release-time gate `wait_until_8am`
of `booking_script.py` evaluates `datetime.now()` on the host-local clock,
not the fixed Eastern reference clock: at the same absolute instant 0, a host
at offset 0 computes a wait of 28800 s while a host at offset +3600 s
computes 25200 s, so two runs at the same instant in different host timezones
compute different wait durations. -/
theorem c7_local_gate_host_dependent :
    wait_until_8am_on_host 0 0 = 28800 ∧
    wait_until_8am_on_host 0 3600 = 25200 ∧
    wait_until_8am_on_host 0 0 ≠ wait_until_8am_on_host 0 3600 := by
  refine ⟨by decide, by decide, by decide⟩

/-- CLAIM C7 as amended: only the refactored gate
(`wait_until_booking_time`, built on `get_eastern_time`) is evaluated in the
fixed US Eastern reference timezone — for every absolute instant, two hosts
with different local timezone offsets compute the same wait duration there,
namely the gate value on the Eastern clock; the legacy `wait_until_8am` of
`booking_script.py` reads the host-local clock and does not have this
property. -/
theorem c7_eastern_gate_host_independent (absTime o1 o2 : Nat) :
    wait_until_booking_time absTime o1 = wait_until_booking_time absTime o2 ∧
    wait_until_booking_time absTime o1 =
      computeWait (absTime + EASTERN_OFFSET) WAIT_UNTIL_HOUR := ⟨rfl, rfl⟩

/-- Environment of one session lifecycle: whether WebDriver construction
succeeds (`driver = webdriver.Chrome(...)`), how the body using the session
ends (`none` = normal return, `some e` = an exception rendered as `e`), and
whether `driver.quit()` raises during teardown. -/
structure SessionWorld where
  initOk : Bool
  bodyErr : Option String
  quitErr : Bool

/-- Observable outcome of `managed_webdriver` (`booking_core/utils.py`):
the primary result handed to the caller, how many times `driver.quit()` was
invoked, and what happened to a teardown exception. -/
structure ManagedRun where
  primary : Except String Unit
  quitCalls : Nat
  quitErrLogged : Bool
  quitErrPropagated : Bool

/-- The `managed_webdriver` context manager of `booking_core/utils.py`: the
`finally` block runs on every exit path and, when a driver was acquired,
calls `driver.quit()` inside its own `try/except` that logs and swallows any
teardown error; an initialization error and a body error are logged and
re-raised unchanged. -/
def managed_webdriver (w : SessionWorld) : ManagedRun :=
  if w.initOk then
    { primary := match w.bodyErr with
                 | none => Except.ok ()
                 | some e => Except.error e
    , quitCalls := 1
    , quitErrLogged := w.quitErr
    , quitErrPropagated := false }
  else
    { primary := Except.error "Error initializing WebDriver"
    , quitCalls := 0
    , quitErrLogged := false
    , quitErrPropagated := false }

/-- Observable outcome of `booking_script.py`'s `main`: whether the final
outcome string was logged, how many times `driver.quit()` was invoked, and
whether an exception escaped `main`. -/
structure LegacyRun where
  outcomeLogged : Bool
  quitCalls : Nat
  raised : Bool
deriving DecidableEq

/-- `booking_script.py`'s `main` at its `finally` block (lines 231-234):
every exception in the body is caught and folded into `final_result`, then
`finally` logs the outcome and — if a driver exists — calls `driver.quit()`
with NO surrounding `try/except`, so a teardown exception propagates out of
`main` (after the outcome has already been logged). -/
def booking_script_main (w : SessionWorld) : LegacyRun :=
  if w.initOk then
    { outcomeLogged := true, quitCalls := 1, raised := w.quitErr }
  else
    { outcomeLogged := true, quitCalls := 0, raised := false }

/-- COUNTEREXAMPLE to CLAIM C6: in a run of `booking_script.py` that acquired
a session, finished its body normally, and then hit an exception in
`driver.quit()`, the teardown exception is neither caught nor logged — it
propagates out of `main` — contradicting the claim that an exception raised
during release is caught and logged and never propagated on every execution
path that acquired a session. -/
theorem c6_legacy_quit_error_propagates :
    booking_script_main ⟨true, none, true⟩ =
      { outcomeLogged := true, quitCalls := 1, raised := true } ∧
    (booking_script_main ⟨true, none, true⟩).raised = true := by
  refine ⟨by decide, by decide⟩

/-- CLAIM C6 as amended: on every path that acquired a session, both
implementations invoke `driver.quit()` exactly once; in `managed_webdriver` a
teardown exception is logged, never propagated, and the primary outcome of
the body is returned unchanged; in the legacy `booking_script.py` `main` the
outcome string is logged before teardown, but a `driver.quit()` exception
propagates uncaught. -/
theorem c6_session_release_amended (w : SessionWorld) (hacq : w.initOk = true) :
    (managed_webdriver w).quitCalls = 1 ∧
    (booking_script_main w).quitCalls = 1 ∧
    (managed_webdriver w).quitErrPropagated = false ∧
    (managed_webdriver w).quitErrLogged = w.quitErr ∧
    (managed_webdriver w).primary =
      (match w.bodyErr with | none => Except.ok () | some e => Except.error e) ∧
    (booking_script_main w).outcomeLogged = true ∧
    (booking_script_main w).raised = w.quitErr := by
  unfold managed_webdriver booking_script_main
  rw [hacq]
  exact ⟨rfl, rfl, rfl, rfl, rfl, rfl, rfl⟩

/-- Witness for C6's amended statement on a concrete acquired session whose
body fails and whose teardown also fails. -/
theorem c6_session_release_amended_witness :
    (managed_webdriver ⟨true, some "boom", true⟩).quitCalls = 1 ∧
    (booking_script_main ⟨true, some "boom", true⟩).quitCalls = 1 ∧
    (managed_webdriver ⟨true, some "boom", true⟩).quitErrPropagated = false ∧
    (managed_webdriver ⟨true, some "boom", true⟩).quitErrLogged = true ∧
    (managed_webdriver ⟨true, some "boom", true⟩).primary =
      (match some "boom" with | none => Except.ok () | some e => Except.error e) ∧
    (booking_script_main ⟨true, some "boom", true⟩).outcomeLogged = true ∧
    (booking_script_main ⟨true, some "boom", true⟩).raised = true :=
  c6_session_release_amended ⟨true, some "boom", true⟩ rfl

/-- Result of one HTTP probe of the conflict-check endpoint, as observed by
`check_court_availability` in `availability_check.py`: a 200 response with a
JSON array of conflicts (entries modelled abstractly), a non-200 status, or
a raised request exception. -/
inductive ProbeResult
  | ok (conflicts : List Nat)
  | badStatus
  | probeError
deriving DecidableEq

/-- `check_court_availability` of `availability_check.py`: a 200 response
yields its JSON array; a non-200 status is logged and yields `None`; an
exception is caught, logged, and yields `None`. Never raises. -/
def check_court_availability : ProbeResult → Option (List Nat)
  | ProbeResult.ok conflicts => some conflicts
  | ProbeResult.badStatus => none
  | ProbeResult.probeError => none

/-- The hour grid of `check_day`:
`range(config.BOOKING_START_HOUR, config.BOOKING_END_HOUR)` = `range(8, 22)`. -/
def hoursList : List Nat := List.range' 8 14

/-- The flat `responses` list produced by `asyncio.gather` in `check_day`:
tasks are created hour-major over `COURT_IDS.items()`, and `gather` returns
their results in task-creation order regardless of completion order. -/
def buildResponses (probe : Nat → String → ProbeResult) : List (Option (List Nat)) :=
  hoursList.flatMap (fun h => COURT_IDS.map (fun c => check_court_availability (probe h c.1)))

/-- The slice `responses[hour_start_idx:hour_end_idx]` taken by `check_day`
for one hour, with `hour_start_idx = (hour - 8) * len(COURT_IDS)`. -/
def hourResponses (probe : Nat → String → ProbeResult) (hour : Nat) :
    List (Option (List Nat)) :=
  ((buildResponses probe).drop ((hour - 8) * COURT_IDS.length)).take COURT_IDS.length

/-- The court names appended to `available_courts_by_time` for one hour by
`check_day`: `zip(hour_responses, court_list)` keeping exactly the pairs
whose response equals the empty list. -/
def availableCourtsAt (probe : Nat → String → ProbeResult) (hour : Nat) : List String :=
  ((hourResponses probe hour).zip COURT_IDS).filterMap
    (fun rc => if rc.1 = some [] then some rc.2.2 else none)

/-- The `slots` list returned by `check_day`: one entry per hour with any
availability. -/
def check_day_slots (probe : Nat → String → ProbeResult) : List (Nat × List String) :=
  hoursList.filterMap (fun h =>
    if (availableCourtsAt probe h).isEmpty then none else some (h, availableCourtsAt probe h))

/-- The `total_available` count returned by `check_day`, accumulated exactly
as in the source loop. -/
def check_day_total (probe : Nat → String → ProbeResult) : Nat :=
  hoursList.foldl
    (fun acc h =>
      if (availableCourtsAt probe h).isEmpty then acc
      else acc + (availableCourtsAt probe h).length) 0

/-- Helper: slicing a concatenation of equal-sized blocks at index
`i * blocksize` recovers the `i`-th block. -/
theorem flatMap_blocks_slice {α β : Type} (cs : List α) (g : Nat → α → β) :
    ∀ (hs : List Nat) (i : Nat), i < hs.length →
      (((hs.flatMap (fun h => cs.map (g h)))).drop (i * cs.length)).take cs.length
        = cs.map (g (hs.getD i 0)) := by
  intro hs
  induction hs with
  | nil => intro i hi; exact absurd hi (by simp)
  | cons h rest ih =>
    intro i hi
    cases i with
    | zero =>
      simp only [List.flatMap_cons, Nat.zero_mul, List.drop_zero, List.getD_cons_zero]
      rw [List.take_left' (by simp)]
    | succ i =>
      have hlen : i < rest.length := by simpa using hi
      simp only [List.flatMap_cons, List.getD_cons_succ]
      have hdrop :
          ((cs.map (g h) ++ rest.flatMap (fun h2 => cs.map (g h2))).drop ((i + 1) * cs.length)) =
            (rest.flatMap (fun h2 => cs.map (g h2))).drop (i * cs.length) := by
        rw [Nat.succ_mul, Nat.add_comm (i * cs.length) cs.length, ← List.drop_drop,
          List.drop_left' (by simp)]
      rw [hdrop]
      exact ih i hlen

/-- Helper: positions of the hour grid. -/
theorem hoursList_getD (i : Nat) (hi : i < 14) : hoursList.getD i 0 = 8 + i := by
  revert hi; revert i; decide

/-- Helper: the per-hour slice of the gathered responses is exactly the
block of probes issued for that hour, attributing each response to the
correct (hour, court) pair. -/
theorem hourResponses_spec (probe : Nat → String → ProbeResult) (hour : Nat)
    (hh : hour ∈ hoursList) :
    hourResponses probe hour =
      COURT_IDS.map (fun c => check_court_availability (probe hour c.1)) := by
  have hb : 8 ≤ hour ∧ hour < 8 + 14 := List.mem_range'_1.mp hh
  have hlt : hour - 8 < 14 := by omega
  have hlen : hour - 8 < hoursList.length := by
    simpa [hoursList] using hlt
  have hs := flatMap_blocks_slice COURT_IDS
    (fun h c => check_court_availability (probe h c.1)) hoursList (hour - 8) hlen
  rw [hourResponses, buildResponses, hs, hoursList_getD (hour - 8) hlt,
    show 8 + (hour - 8) = hour by omega]

/-- Helper: filtering the zip of a mapped list with the list itself is a
filter of the list. -/
theorem filterMap_zip_map {α β γ : Type} (f : α → β) (p : β × α → Option γ) :
    ∀ l : List α, ((l.map f).zip l).filterMap p = l.filterMap (fun a => p (f a, a))
  | [] => rfl
  | a :: l => by
    simp only [List.map_cons, List.zip_cons_cons, List.filterMap_cons]
    cases p (f a, a) <;> simp [filterMap_zip_map f p l]

/-- Helper: the per-hour report is the filter of the catalog by
"probe returned the empty conflict array". -/
theorem availableCourtsAt_spec (probe : Nat → String → ProbeResult) (hour : Nat)
    (hh : hour ∈ hoursList) :
    availableCourtsAt probe hour =
      COURT_IDS.filterMap
        (fun c => if probe hour c.1 = ProbeResult.ok [] then some c.2 else none) := by
  have hfun : (fun c : String × String =>
        if check_court_availability (probe hour c.1) = some ([] : List Nat)
        then some c.2 else none) =
      (fun c : String × String =>
        if probe hour c.1 = ProbeResult.ok [] then some c.2 else none) := by
    funext c
    cases hp : probe hour c.1 <;> simp [check_court_availability]
  rw [availableCourtsAt, hourResponses_spec probe hour hh,
    filterMap_zip_map (fun c : String × String => check_court_availability (probe hour c.1))
      (fun rc : Option (List Nat) × (String × String) =>
        if rc.1 = some [] then some rc.2.2 else none) COURT_IDS]
  exact congrArg (fun f => List.filterMap f COURT_IDS) hfun

/-- Helper: folding the accumulation loop of `check_day` gives the sum of
the per-hour counts (hours with no availability contribute zero). -/
theorem check_day_total_eq_sum (probe : Nat → String → ProbeResult) :
    check_day_total probe =
      (hoursList.map (fun h => (availableCourtsAt probe h).length)).sum := by
  have hstep : (fun (acc h : Nat) =>
      if (availableCourtsAt probe h).isEmpty then acc
      else acc + (availableCourtsAt probe h).length) =
      fun (acc h : Nat) => acc + (availableCourtsAt probe h).length := by
    funext acc h
    by_cases he : (availableCourtsAt probe h).isEmpty
    · rw [if_pos he, List.isEmpty_iff.mp he]
      rfl
    · rw [if_neg he]
  rw [check_day_total, hstep]
  have haux : ∀ (l : List Nat) (a : Nat),
      l.foldl (fun acc h => acc + (availableCourtsAt probe h).length) a =
        a + (l.map (fun h => (availableCourtsAt probe h).length)).sum := by
    intro l
    induction l with
    | nil => intro a; simp
    | cons x xs ih =>
      intro a
      simp only [List.foldl_cons, List.map_cons, List.sum_cons]
      rw [ih]
      omega
  rw [haux]
  omega

/-- CLAIM C8: for every scan of one date, the per-hour report lists exactly
those courts whose probe response is the empty JSON array — each response
attributed to the correct (hour, court) pair through the order-preserving
gather and slicing — while a non-empty array, a non-200 status, or a probe
exception leaves that single pair out without affecting the rest of the scan;
and the day's total equals the sum over the hours of the number of available
courts at each hour. -/
theorem c8_scanner_aggregation (probe : Nat → String → ProbeResult) (hour : Nat)
    (hh : hour ∈ hoursList) :
    availableCourtsAt probe hour =
      COURT_IDS.filterMap
        (fun c => if probe hour c.1 = ProbeResult.ok [] then some c.2 else none) ∧
    check_day_total probe =
      (hoursList.map (fun h =>
        (COURT_IDS.filterMap
          (fun c => if probe h c.1 = ProbeResult.ok [] then some c.2 else none)).length)).sum := by
  refine ⟨availableCourtsAt_spec probe hour hh, ?_⟩
  rw [check_day_total_eq_sum probe]
  exact congrArg List.sum
    (List.map_congr_left (fun h hmem =>
      congrArg List.length (availableCourtsAt_spec probe h hmem)))

/-- A concrete probe world matching the spec's worked example: at hour 9
exactly Tennis 1 and Tennis 3 report no conflicts, at hour 10 only Tennis 1
does, and every other (hour, court) pair reports a conflict. -/
def exampleProbe : Nat → String → ProbeResult := fun h c =>
  if h == 9 && (c == "036dfea4-c487-47b0-b7fe-c9cbe52b7c98" ||
                c == "9bdef00b-afa0-4b6b-bf9a-75899f7f97c7") then ProbeResult.ok []
  else if h == 10 && c == "036dfea4-c487-47b0-b7fe-c9cbe52b7c98" then ProbeResult.ok []
  else ProbeResult.ok [1]

/-- Witness for C8 on the spec's example: hour 9 reports exactly Tennis 1
and Tennis 3, and the day's total is 2 + 1 = 3. -/
theorem c8_scanner_aggregation_witness :
    availableCourtsAt exampleProbe 9 = ["Octagon Tennis 1", "Octagon Tennis 3"] ∧
    check_day_total exampleProbe = 3 :=
  ⟨(c8_scanner_aggregation exampleProbe 9 (by decide)).1.trans (by decide),
   (c8_scanner_aggregation exampleProbe 9 (by decide)).2.trans (by decide)⟩

/-- The literal marker text whose presence in the login response body
`availability_check.py`'s `login` requires. -/
def NEW_PERMIT_MARKER : List Char := "New Permit Request".toList

/-- Python's substring operator `marker in text` over character lists. -/
def containsMarker (marker text : List Char) : Bool :=
  (List.range (text.length + 1)).any (fun i => marker.isPrefixOf (text.drop i))

/-- The scanner-path `login` of `availability_check.py`, at its response
check: on `response.status == 200 and "New Permit Request" in text` it
returns the session cookies, otherwise it raises
`Exception(f"Login failed with status code ...")` (the surrounding
`except` logs and re-raises the same error). `text` is the response body and
`cookies` the session's cookie jar. -/
def login (status : Nat) (text : List Char) (cookies : List (String × String)) :
    Except String (List (String × String)) :=
  if status == 200 && containsMarker NEW_PERMIT_MARKER text then Except.ok cookies
  else Except.error ("Login failed with status code " ++ toString status)

/-- CLAIM C9: the scanner-path authentication succeeds (returning the session
cookies) if and only if the HTTP status is 200 AND the response body contains
the literal marker text "New Permit Request"; in every other case — any other
status, or a 200 body lacking the marker — it raises a login-failure error. -/
theorem c9_login_iff_marker (status : Nat) (text : List Char)
    (cookies : List (String × String)) :
    (login status text cookies = Except.ok cookies ↔
      (status = 200 ∧ containsMarker NEW_PERMIT_MARKER text = true)) ∧
    (¬(status = 200 ∧ containsMarker NEW_PERMIT_MARKER text = true) →
      login status text cookies =
        Except.error ("Login failed with status code " ++ toString status)) := by
  unfold login
  split
  next hcond =>
    have hp : status = 200 ∧ containsMarker NEW_PERMIT_MARKER text = true := by
      simpa [Bool.and_eq_true, beq_iff_eq] using hcond
    exact ⟨⟨fun _ => hp, fun _ => rfl⟩, fun hn => absurd hp hn⟩
  next hcond =>
    have hp : ¬(status = 200 ∧ containsMarker NEW_PERMIT_MARKER text = true) := by
      simpa [Bool.and_eq_true, beq_iff_eq] using hcond
    refine ⟨⟨fun he => absurd he (by simp), fun hx => absurd hx hp⟩, fun _ => rfl⟩

/-- Witness for C9: a 200 response containing the marker succeeds; a 403
response with the marker and a 200 response without it both fail. -/
theorem c9_login_iff_marker_witness :
    login 200 ("Hello! New Permit Request page".toList) [("session", "abc")] =
      Except.ok [("session", "abc")] ∧
    login 403 ("Hello! New Permit Request page".toList) [] =
      Except.error ("Login failed with status code " ++ toString 403) ∧
    login 200 ("Access denied".toList) [] =
      Except.error ("Login failed with status code " ++ toString 200) :=
  ⟨(c9_login_iff_marker 200 ("Hello! New Permit Request page".toList)
      [("session", "abc")]).1.mpr ⟨rfl, by decide⟩,
   (c9_login_iff_marker 403 ("Hello! New Permit Request page".toList) []).2 (by decide),
   (c9_login_iff_marker 200 ("Access denied".toList) []).2 (by decide)⟩
